import Mathlib

/-!
Verification of the halvemaan incremental GitHub-ingestion pipeline.

Each definition below is a shallow embedding of a function or class of the
Python source (files `halvemaan/actor.py`, `halvemaan/base.py`,
`halvemaan/graphql.py`, `halvemaan/repository.py`, `halvemaan/pull_request.py`,
`halvemaan/pull_request_review.py`).  Gateway traffic is made explicit: every
embedded operation that issues a GraphQL query returns, alongside its value,
the number of Gateway calls it performed.  Loops that the source writes as
`while ...` are embedded fuel-indexed; `none` means the loop has not finished
within the given fuel, and a loop diverges exactly when every fuel yields
`none`.
-/

/- ===================== actor.py : ActorType, Actor ===================== -/

/-- `ActorType` enum of `actor.py`: the author types stored by the system. -/
inductive ActorType where
  | USER
  | BOT
  | MANNEQUIN
  | ORGANIZATION
  | ENTERPRISE_USER_ACCOUNT
  | UNKNOWN
deriving DecidableEq, Repr

/-- Python's `ActorType` member `.name` attribute. -/
def ActorType.name : ActorType → String
  | .USER => "USER"
  | .BOT => "BOT"
  | .MANNEQUIN => "MANNEQUIN"
  | .ORGANIZATION => "ORGANIZATION"
  | .ENTERPRISE_USER_ACCOUNT => "ENTERPRISE_USER_ACCOUNT"
  | .UNKNOWN => "UNKNOWN"

/-- Iteration order of `for actor_type in ActorType` (declaration order). -/
def actorTypeList : List ActorType :=
  [.USER, .BOT, .MANNEQUIN, .ORGANIZATION, .ENTERPRISE_USER_ACCOUNT, .UNKNOWN]

/-- The `Actor` class of `actor.py`: an id plus a typed kind. -/
structure Actor where
  id : String
  actor_type : ActorType
deriving DecidableEq, Repr

/- ===================== JSON values and Python dict errors ===================== -/

/-- Parsed JSON, the shape of `response_json` that `execute_query` returns. -/
inductive Json where
  | null
  | str (s : String)
  | num (n : Int)
  | bool (b : Bool)
  | arr (xs : List Json)
  | obj (fields : List (String × Json))

/-- The Python exceptions that subscripting / attribute access can raise. -/
inductive PyError where
  | keyError
  | typeError
  | attrError
deriving DecidableEq, Repr

/-- Python `value[key]`: on a dict, a lookup that raises `KeyError` when the
key is missing; on `None` (and any non-dict value) it raises `TypeError`. -/
def Json.getItem : Json → String → Except PyError Json
  | Json.obj fields, key =>
    match fields.find? (fun f => f.1 == key) with
    | some f => Except.ok f.2
    | none => Except.error PyError.keyError
  | _, _ => Except.error PyError.typeError

/-- Python `str.upper` (character-wise uppercasing; the GraphQL typenames
involved are ASCII). -/
def pyUpper (s : String) : String :=
  String.mk (s.data.map Char.toUpper)

/-- Python `value.upper()`: defined on `str`, raises `AttributeError` on any
other value. -/
def Json.upper : Json → Except PyError String
  | Json.str s => Except.ok (pyUpper s)
  | _ => Except.error PyError.attrError

/- ===================== actor.py : GitActorLookupMixin._find_actor_by_id ===================== -/

/-- The expression `response_json["data"]["node"]["__typename"].upper()` of
`_find_actor_by_id` (actor.py line 68), with each subscript/attribute step
able to raise. -/
def typenameOf (response : Json) : Except PyError String := do
  let d ← response.getItem "data"
  let n ← d.getItem "node"
  let t ← n.getItem "__typename"
  t.upper

/-- The `for actor_type in ActorType` matching loop of `_find_actor_by_id`:
first declared type whose `.name` equals the uppercased typename, falling
back to `UNKNOWN`; an extraction failure also falls back to `UNKNOWN` (but
only `KeyError` is caught). -/
def actorTypeFromTypename : Except PyError String → ActorType
  | Except.ok s => (actorTypeList.find? (fun t => s == t.name)).getD ActorType.UNKNOWN
  | Except.error _ => ActorType.UNKNOWN

/-- Response handling of `_find_actor_by_id` (actor.py lines 67-77): the body
after `execute_query` returned `response_json`.  The `try`/`except KeyError`
of the source catches only `KeyError`; a `TypeError` or `AttributeError`
raised while extracting the typename propagates as `Except.error`. -/
def findActorTypeFromResponse (nodeId : String) (response : Json) : Except PyError Actor :=
  match typenameOf response with
  | Except.ok typename =>
    match actorTypeList.find? (fun t => typename == t.name) with
    | some t => Except.ok ⟨nodeId, t⟩
    | none => Except.ok ⟨nodeId, ActorType.UNKNOWN⟩
  | Except.error PyError.keyError => Except.ok ⟨nodeId, ActorType.UNKNOWN⟩
  | Except.error e => Except.error e

/- ===================== actor.py : @lru_cache memoization ===================== -/

/-- The cache that `functools.lru_cache(maxsize=None)` keeps for the method
`_find_actor_by_id`: it is keyed on the full positional-argument tuple
`(self, node_id)`, so the task-instance identity (here a `Nat`) is part of
the key. -/
abbrev ActorCache := List ((Nat × String) × Actor)

/-- `_find_actor_by_id` as invoked through its `@lru_cache` decorator
(actor.py lines 61-77).  `gw` maps the node id to the Gateway's response
JSON for `_type_query`; the third component of the result counts Gateway
calls.  On a cache hit no query runs; on a miss one query runs and a
successful result is cached (Python's `lru_cache` does not cache raised
exceptions). -/
def findActorByIdCached (gw : String → Json) (self : Nat) (nodeId : String)
    (cache : ActorCache) : Except PyError Actor × ActorCache × Nat :=
  match cache.find? (fun e => e.1.1 == self && e.1.2 == nodeId) with
  | some e => (Except.ok e.2, cache, 0)
  | none =>
    match findActorTypeFromResponse nodeId (gw nodeId) with
    | Except.ok a => (Except.ok a, ((self, nodeId), a) :: cache, 1)
    | Except.error err => (Except.error err, cache, 1)

/-- The cache of `@lru_cache` on `_find_actor_by_login`, keyed on
`(self, login)`. -/
abbrev LoginCache := List ((Nat × String) × Actor)

/-- `_find_actor_by_login` as invoked through its `@lru_cache` decorator
(actor.py lines 79-116).  The paginated-search body of the method is
abstracted into `searchBody`, which returns the resolved actor together
with the number of Gateway calls the search issued; the memoization layer
is embedded exactly: a hit issues no calls, a miss runs the body and caches
the (always returned, never raised) result. -/
def findActorByLoginCached (searchBody : String → Actor × Nat) (self : Nat)
    (login : String) (cache : LoginCache) : Actor × LoginCache × Nat :=
  match cache.find? (fun e => e.1.1 == self && e.1.2 == login) with
  | some e => (e.2, cache, 0)
  | none =>
    let r := searchBody login
    (r.1, ((self, login), r.1) :: cache, r.2)

/- ===================== graphql.py : GraphQLClient.execute_query ===================== -/

/-- One observable outcome of `requests.post` in `execute_query`: either the
call raised `ConnectionError` (`conn = true`), or it returned a response
with the given status and a JSON body that has / lacks the `data` and
`errors` keys. -/
structure Response where
  conn : Bool
  status : Nat
  hasData : Bool
  hasErrors : Bool
deriving DecidableEq, Repr

/-- The exceptions `execute_query` can raise: `GraphQLException` (with
`rateLimit = true` for the `errors`-key branch), `GraphQLStatusException`
for a non-200 status, and the re-raised `ConnectionError`. -/
inductive Exc where
  | graphQL (rateLimit : Bool)
  | graphQLStatus (code : Nat)
  | connection
deriving DecidableEq, Repr

/-- Trace of one call to `execute_query`: its result (`ok` when a body with a
`data` key was returned), the sequence of `time.sleep` durations in order,
and the number of `requests.post` calls performed. -/
structure ExecTrace where
  result : Except Exc Unit
  sleeps : List Nat
  calls : Nat
deriving Repr

/-- Whether a propagating exception is a `ConnectionError` (the only class the
source's `except ConnectionError` clause catches). -/
def isConnErr : Except Exc Unit → Bool
  | Except.error Exc.connection => true
  | _ => false

/-- `GraphQLClient.execute_query` (graphql.py lines 46-95).  `gw i` is the
outcome of the i-th `requests.post` call overall; `counter` is the retry
budget (source default 3).  Branches, in source order: a 200 body with
`data` returns it; a 200 body without `data` but with `errors` sleeps 1800
and retries; a 200 body without `data` and without `errors` sleeps 60 and
retries; a non-200 status sleeps 60 and retries; a `ConnectionError` from
`requests.post` is caught, sleeps 60 and retries.  With budget 0 each
branch raises instead.  The recursive retry calls of the first three
branches sit inside the `try` block, so a `ConnectionError` propagating out
of such a retry is caught by the enclosing frame's handler, which (its own
`counter` being nonzero there) sleeps 60 and retries once more; the retry
made from the handler itself is outside the `try` and is not protected. -/
def execute_query (gw : Nat → Response) : Nat → Nat → ExecTrace
  | counter, idx =>
    let r := gw idx
    if r.conn then
      match counter with
      | 0 => ⟨Except.error Exc.connection, [], 1⟩
      | c + 1 =>
        let r1 := execute_query gw c (idx + 1)
        ⟨r1.result, 60 :: r1.sleeps, 1 + r1.calls⟩
    else if r.status = 200 then
      if r.hasData then ⟨Except.ok (), [], 1⟩
      else if r.hasErrors then
        match counter with
        | 0 => ⟨Except.error (Exc.graphQL true), [], 1⟩
        | c + 1 =>
          let r1 := execute_query gw c (idx + 1)
          if isConnErr r1.result then
            let r2 := execute_query gw c (idx + 1 + r1.calls)
            ⟨r2.result, 1800 :: (r1.sleeps ++ 60 :: r2.sleeps), 1 + r1.calls + r2.calls⟩
          else ⟨r1.result, 1800 :: r1.sleeps, 1 + r1.calls⟩
      else
        match counter with
        | 0 => ⟨Except.error (Exc.graphQL false), [], 1⟩
        | c + 1 =>
          let r1 := execute_query gw c (idx + 1)
          if isConnErr r1.result then
            let r2 := execute_query gw c (idx + 1 + r1.calls)
            ⟨r2.result, 60 :: (r1.sleeps ++ 60 :: r2.sleeps), 1 + r1.calls + r2.calls⟩
          else ⟨r1.result, 60 :: r1.sleeps, 1 + r1.calls⟩
    else
      match counter with
      | 0 => ⟨Except.error (Exc.graphQLStatus r.status), [], 1⟩
      | c + 1 =>
        let r1 := execute_query gw c (idx + 1)
        if isConnErr r1.result then
          let r2 := execute_query gw c (idx + 1 + r1.calls)
          ⟨r2.result, 60 :: (r1.sleeps ++ 60 :: r2.sleeps), 1 + r1.calls + r2.calls⟩
        else ⟨r1.result, 60 :: r1.sleeps, 1 + r1.calls⟩

/-- A response that always fails without a connection error: an HTTP response
whose status is not 200, or a 200 response whose body lacks the `data` key. -/
def failsWithoutConn (r : Response) : Prop :=
  r.conn = false ∧ (r.status ≠ 200 ∨ r.hasData = false)

/-- The sleep interval `execute_query` uses for a failing response: 1800 for a
200 body that lacks `data` but carries `errors`, 60 otherwise. -/
def sleepIntervalOf (r : Response) : Nat :=
  if r.status = 200 ∧ r.hasData = false ∧ r.hasErrors = true then 1800 else 60

/-- The exception `execute_query` raises once the budget is exhausted at a
failing response. -/
def fatalExcOf (r : Response) : Exc :=
  if r.status = 200 then
    (if r.hasErrors then Exc.graphQL true else Exc.graphQL false)
  else Exc.graphQLStatus r.status

/- ===================== base.py : ObjectType ===================== -/

/-- `ObjectType` enum of `base.py`: discriminator of every stored document. -/
inductive ObjectType where
  | PULL_REQUEST
  | PULL_REQUEST_COMMENT
  | PULL_REQUEST_REVIEW
  | PULL_REQUEST_REVIEW_COMMENT
  | USER
  | REPOSITORY
  | ORGANIZATION
  | COMMIT
  | COMMIT_COMMENT
  | CHECK_SUITE
deriving DecidableEq, Repr

/-- Python's `ObjectType` member `.name` attribute. -/
def ObjectType.name : ObjectType → String
  | .PULL_REQUEST => "PULL_REQUEST"
  | .PULL_REQUEST_COMMENT => "PULL_REQUEST_COMMENT"
  | .PULL_REQUEST_REVIEW => "PULL_REQUEST_REVIEW"
  | .PULL_REQUEST_REVIEW_COMMENT => "PULL_REQUEST_REVIEW_COMMENT"
  | .USER => "USER"
  | .REPOSITORY => "REPOSITORY"
  | .ORGANIZATION => "ORGANIZATION"
  | .COMMIT => "COMMIT"
  | .COMMIT_COMMENT => "COMMIT_COMMENT"
  | .CHECK_SUITE => "CHECK_SUITE"

/- ===================== repository.py : Repository ===================== -/

/-- The `Repository` class of `repository.py` (its persisted attributes).
Timestamps are opaque instants, embedded as `Nat`. -/
structure Repository where
  id : String
  name : String
  owner_login : String
  owner : Actor
  total_pull_requests : Nat
  pull_request_ids : List String
  is_fork : Bool
  fork_count : Nat
  insert_datetime : Nat
  update_datetime : Nat
  object_type : ObjectType
deriving DecidableEq, Repr

/-- The dictionary built by `Actor.to_dictionary`. -/
structure ActorDict where
  id : String
  actor_type : String
deriving DecidableEq, Repr

/-- The dictionary built by `Repository.to_dictionary` — the document shape
persisted to the store. -/
structure RepositoryDict where
  id : String
  name : String
  owner_login : String
  owner : ActorDict
  total_pull_requests : Nat
  pull_request_ids : List String
  is_fork : Bool
  fork_count : Nat
  insert_timestamp : Nat
  update_timestamp : Nat
  object_type : String
deriving DecidableEq, Repr

/-- `Actor.to_dictionary` (actor.py lines 47-55). -/
def Actor.to_dictionary (a : Actor) : ActorDict :=
  ⟨a.id, a.actor_type.name⟩

/-- `Repository.to_dictionary` (repository.py lines 54-71). -/
def Repository.to_dictionary (r : Repository) : RepositoryDict :=
  { id := r.id
    name := r.name
    owner_login := r.owner_login
    owner := r.owner.to_dictionary
    total_pull_requests := r.total_pull_requests
    pull_request_ids := r.pull_request_ids
    is_fork := r.is_fork
    fork_count := r.fork_count
    insert_timestamp := r.insert_datetime
    update_timestamp := r.update_datetime
    object_type := r.object_type.name }

/-- Python `ActorType[name]`: lookup of an enum member by name, `KeyError`
(here `none`) when no member has that name. -/
def actorTypeOfName (s : String) : Option ActorType :=
  actorTypeList.find? (fun t => t.name == s)

/-- `Repository.parse_dictionary` (repository.py lines 73-86).  A fresh
`Repository()` starts with `object_type = REPOSITORY` and the method never
reassigns it; `ActorType[json['owner']['actor_type']]` can raise `KeyError`
(modelled as `none`).  The fresh object's initial timestamps are overwritten
by the parsed ones. -/
def Repository.parse_dictionary (d : RepositoryDict) : Option Repository :=
  match actorTypeOfName d.owner.actor_type with
  | none => none
  | some t =>
    some { id := d.id
           name := d.name
           owner_login := d.owner_login
           owner := ⟨d.owner.id, t⟩
           total_pull_requests := d.total_pull_requests
           pull_request_ids := d.pull_request_ids
           is_fork := d.is_fork
           fork_count := d.fork_count
           insert_datetime := d.insert_timestamp
           update_datetime := d.update_timestamp
           object_type := ObjectType.REPOSITORY }

/- ===================== base.py : GitMongoTask.run_successful / GitMongoTarget.exists ===================== -/

/-- One parent document as the completion oracle sees it: its declared
`total_*` counter and the id-list/array accumulated so far. -/
structure ParentDoc where
  total : Nat
  ids : List String
deriving DecidableEq, Repr

mutual
/-- A task node: the parent documents in its scope (repository id + object
type) that its `_get_expected_results` / `_get_actual_results` sum over, and
the upstream tasks its `requires()` returns.  (Mutual with the list type so
that the recursion of `run_successful` is structural.) -/
inductive MTask where
  | mk (docs : List ParentDoc) (reqs : MTaskList)
/-- A list of upstream tasks, as returned by `requires()`. -/
inductive MTaskList where
  | nil
  | cons (t : MTask) (ts : MTaskList)
end

/-- The scope documents of a task. -/
def docsOf : MTask → List ParentDoc
  | .mk docs _ => docs

/-- The task's "expected" cardinality: sum of the declared `total_*` fields
over the scope's parent documents (the shape of every `_get_expected_results`
that reads the store, e.g. pull_request_review.py lines 288-300). -/
def getExpectedResults (docs : List ParentDoc) : Nat :=
  (docs.map (fun d => d.total)).sum

/-- The task's "actual" cardinality: sum of the accumulated id-list lengths
(the shape of every plain `_get_actual_results`, e.g.
pull_request_review.py lines 302-314). -/
def getActualResults (docs : List ParentDoc) : Nat :=
  (docs.map (fun d => d.ids.length)).sum

mutual
/-- `GitMongoTask.run_successful` (base.py lines 90-107): first every task in
`self.requires()` must itself report success, then the task's own expected
and actual counts must agree. -/
def run_successful : MTask → Bool
  | .mk docs reqs =>
    reqsSuccessful reqs && (getExpectedResults docs == getActualResults docs)
/-- The `for item in self.requires()` loop of `run_successful`. -/
def reqsSuccessful : MTaskList → Bool
  | .nil => true
  | .cons t ts => run_successful t && reqsSuccessful ts
end

/-- `GitMongoTarget.exists` (base.py lines 129-136): the task's output target
exists exactly when `run_successful` returns `True`. -/
def targetExists (t : MTask) : Bool :=
  run_successful t

mutual
/-- The task together with its transitive requirements, in visit order. -/
def taskClosure : MTask → List MTask
  | .mk docs reqs => .mk docs reqs :: taskClosureList reqs
/-- The transitive requirements of a list of tasks, in visit order. -/
def taskClosureList : MTaskList → List MTask
  | .nil => []
  | .cons t ts => taskClosure t ++ taskClosureList ts
end

/-- A single task's own expected-vs-actual comparison. -/
def ownMatch (t : MTask) : Bool :=
  getExpectedResults (docsOf t) == getActualResults (docsOf t)

/- ===================== repository.py : LoadRepositoryPullRequestIdsTask ===================== -/

/-- `LoadRepositoryPullRequestIdsTask._get_expected_results` (repository.py
lines 476-481): the repository document's declared `total_pull_requests`.
The second component counts the Gateway calls the computation performs. -/
def loadRepositoryPullRequestIdsGetExpectedResults (repo : Repository) : Nat × Nat :=
  (repo.total_pull_requests, 0)

/-- `LoadRepositoryPullRequestIdsTask._get_actual_results` (repository.py
lines 483-489): re-reads the repository document from the store and counts
its accumulated `pull_request_ids`. -/
def loadRepositoryPullRequestIdsGetActualResults (repo : Repository) : Nat × Nat :=
  (repo.pull_request_ids.length, 0)

/-- The `while self.repository.total_pull_requests > len(pull_request_ids)`
pagination loop of `LoadRepositoryPullRequestIdsTask.run` (repository.py
lines 450-464).  `api cursor` is the `edges` list (pairs of cursor and
node id) that the Gateway returns for `_pull_request_query(cursor)`; the
query requests no `pageInfo`, so the loop's only exit is the count reaching
the declared total.  Fuel-indexed: `none` means the loop is still running
after `fuel` iterations; `some (ids, calls)` is the accumulated id list and
the number of Gateway calls once the loop exits. -/
def prIdLoop (api : Option String → List (String × String)) (total : Nat) :
    Nat → List String → Option String → Option (List String × Nat)
  | 0, _, _ => none
  | fuel + 1, ids, cursor =>
    if total > ids.length then
      let page := api cursor
      let cursor' := match page.getLast? with
                     | some e => some e.1
                     | none => cursor
      match prIdLoop api total fuel (ids ++ page.map (fun e => e.2)) cursor' with
      | some r => some (r.1, r.2 + 1)
      | none => none
    else some (ids, 0)

/-- `LoadRepositoryPullRequestIdsTask.run` (repository.py lines 440-474): a
guard short-circuits the whole body when expected and actual counts already
agree; otherwise the pagination loop runs and the repository document's
`pull_request_ids` and `update_timestamp` are overwritten.  Result: the
updated repository document and the number of Gateway calls. -/
def loadRepositoryPullRequestIdsRun (api : Option String → List (String × String))
    (now : Nat) (repo : Repository) (fuel : Nat) : Option (Repository × Nat) :=
  if (loadRepositoryPullRequestIdsGetExpectedResults repo).1 ≠
      (loadRepositoryPullRequestIdsGetActualResults repo).1 then
    match prIdLoop api repo.total_pull_requests fuel [] none with
    | some r =>
      some ({ repo with pull_request_ids := r.1, update_datetime := now }, r.2)
    | none => none
  else some (repo, 0)

/- ===================== pull_request.py : LoadPullRequestsTask ===================== -/

/-- A stored pull-request document, reduced to the fields the find filters of
`LoadPullRequestsTask` read. -/
structure PRDoc where
  id : String
  repository_id : String
  object_type : String
deriving DecidableEq, Repr

/-- `LoadPullRequestsTask._get_expected_results` (pull_request.py lines
164-169): the length of the repository document's `pull_request_ids`. -/
def loadPullRequestsGetExpectedResults (repo : Repository) : Nat × Nat :=
  (repo.pull_request_ids.length, 0)

/-- `LoadPullRequestsTask._get_actual_results` (pull_request.py lines
171-176): the store's count of documents with this `repository_id` and
object type `PULL_REQUEST`. -/
def loadPullRequestsGetActualResults (repo : Repository) (store : List PRDoc) : Nat × Nat :=
  ((store.filter (fun d => d.repository_id == repo.id && d.object_type == "PULL_REQUEST")).length, 0)

/-- `LoadPullRequestsTask._build_and_insert_pull_request` (pull_request.py
lines 128-162): insert only when no document with this id and type exists;
a miss costs one Gateway query (`api` abstracts the response parsing into
the inserted document). -/
def buildAndInsertPullRequest (api : String → PRDoc) (acc : List PRDoc × Nat)
    (prId : String) : List PRDoc × Nat :=
  if acc.1.any (fun d => d.id == prId && d.object_type == "PULL_REQUEST") then acc
  else (acc.1 ++ [api prId], acc.2 + 1)

/-- `LoadPullRequestsTask.run` (pull_request.py lines 103-126): guarded by the
oracle's own comparison; when the counts differ, every id in the repository
document's `pull_request_ids` is fetched-and-inserted unless already
present. -/
def loadPullRequestsRun (api : String → PRDoc) (repo : Repository)
    (store : List PRDoc) : List PRDoc × Nat :=
  if (loadPullRequestsGetExpectedResults repo).1 ≠
      (loadPullRequestsGetActualResults repo store).1 then
    repo.pull_request_ids.foldl (buildAndInsertPullRequest api) (store, 0)
  else (store, 0)

/- ===================== the scheduler (luigi) ===================== -/

/-- A scheduled task as the scheduler sees it: a completion check over the
store state and a run action returning the new store state and its Gateway
call count. -/
structure STask (σ : Type) where
  satisfied : σ → Bool
  run : σ → σ × Nat

/-- Modelled from the spec: the Task Graph / Scheduler is the luigi library,
which is not among this repository's sources.  Per the spec (§2, §4.5) the
scheduler "short-circuits a task if the Oracle already reports it complete":
a task whose output target exists is skipped, otherwise its `run` executes.
Tasks are executed in dependency order, accumulating Gateway calls. -/
def scheduleAll {σ : Type} (ts : List (STask σ)) (s : σ) : σ × Nat :=
  ts.foldl (fun acc t =>
    if t.satisfied acc.1 then acc
    else
      let r := t.run acc.1
      (r.1, acc.2 + r.2)) (s, 0)

/- ===================== pull_request.py : LoadCommitIdsTask ===================== -/

/-- One page returned for `_pull_requests_commit_ids_query`: the `pageInfo`
flags and the commit ids of the `edges`. -/
structure CommitPage where
  hasNextPage : Bool
  endCursor : Option String
  edges : List String
deriving DecidableEq, Repr

/-- The `while has_next_page` pagination loop of `LoadCommitIdsTask.run`
(pull_request.py lines 513-533).  Unlike the other walkers this one reads
`pageInfo.hasNextPage` and exits as soon as the API reports no further
pages, whatever the accumulated count.  Fuel-indexed as in `prIdLoop`. -/
def commitLoop (api : Option String → CommitPage) :
    Nat → List String → Option String → Option (List String × Nat)
  | 0, _, _ => none
  | fuel + 1, ids, cursor =>
    let page := api cursor
    let ids' := ids ++ page.edges
    if page.hasNextPage then
      match commitLoop api fuel ids' page.endCursor with
      | some r => some (r.1, r.2 + 1)
      | none => none
    else some (ids', 1)

/-- A stored pull-request document, reduced to the fields `LoadCommitIdsTask`
reads and writes.  `commit_id_load_status = none` models the key being
absent from the document. -/
structure PrCommitDoc where
  id : String
  total_commits : Nat
  commit_ids : List String
  commit_id_load_status : Option String
deriving DecidableEq, Repr

/-- The per-pull-request body of `LoadCommitIdsTask.run` (pull_request.py
lines 504-546): when the declared total exceeds the stored ids, the
pagination loop runs; the document is then updated with the collected ids
and the marker `LOADED_SUCCESSFULLY` when the counts agree, or
`GIT_RETURNED_LESS` otherwise. -/
def loadCommitIdsForPr (api : Option String → CommitPage) (fuel : Nat)
    (pr : PrCommitDoc) : Option (PrCommitDoc × Nat) :=
  if pr.total_commits > pr.commit_ids.length then
    match commitLoop api fuel [] none with
    | none => none
    | some r =>
      if pr.total_commits = r.1.length then
        some ({ pr with commit_ids := r.1,
                        commit_id_load_status := some "LOADED_SUCCESSFULLY" }, r.2)
      else
        some ({ pr with commit_ids := r.1,
                        commit_id_load_status := some "GIT_RETURNED_LESS" }, r.2)
  else some (pr, 0)

/-- `LoadCommitIdsTask._get_expected_results` (pull_request.py lines 458-470):
sum of `total_commits` over the repository's pull-request documents. -/
def loadCommitIdsGetExpectedResults (prs : List PrCommitDoc) : Nat × Nat :=
  ((prs.map (fun p => p.total_commits)).sum, 0)

/-- `LoadCommitIdsTask._get_actual_results` (pull_request.py lines 472-491):
a document carrying `commit_id_load_status == 'GIT_RETURNED_LESS'`
contributes its declared `total_commits`; any other document contributes
`len(commit_ids)`. -/
def loadCommitIdsGetActualResults (prs : List PrCommitDoc) : Nat × Nat :=
  ((prs.map (fun p =>
    if p.commit_id_load_status == some "GIT_RETURNED_LESS" then p.total_commits
    else p.commit_ids.length)).sum, 0)

/- ===================== pull_request_review.py : LoadReviewCommentIdsTask ===================== -/

/-- A stored pull-request-review document, reduced to the fields
`LoadReviewCommentIdsTask` reads and writes. -/
structure ReviewDoc where
  id : String
  total_comments : Nat
  comment_ids : List String
deriving DecidableEq, Repr

/-- The `while comments_expected > len(comment_ids)` pagination loop of
`LoadReviewCommentIdsTask.run` (pull_request_review.py lines 259-275).
`api cursor` is the `edges` list (cursor, comment id pairs) of
`_pull_request_review_comment_ids_query`; the query requests no `pageInfo`,
so the loop's only exit is the count reaching `total_comments`.
Fuel-indexed as in `prIdLoop`. -/
def reviewCommentLoop (api : Option String → List (String × String)) (expected : Nat) :
    Nat → List String → Option String → Option (List String × Nat)
  | 0, _, _ => none
  | fuel + 1, ids, cursor =>
    if expected > ids.length then
      let page := api cursor
      let cursor' := match page.getLast? with
                     | some e => some e.1
                     | none => cursor
      match reviewCommentLoop api expected fuel (ids ++ page.map (fun e => e.2)) cursor' with
      | some r => some (r.1, r.2 + 1)
      | none => none
    else some (ids, 0)

/-- `LoadReviewCommentIdsTask._get_expected_results` (pull_request_review.py
lines 288-300): sum of `total_comments` over the repository's review
documents. -/
def loadReviewCommentIdsGetExpectedResults (reviews : List ReviewDoc) : Nat × Nat :=
  ((reviews.map (fun r => r.total_comments)).sum, 0)

/-- `LoadReviewCommentIdsTask._get_actual_results` (pull_request_review.py
lines 302-314): sum of `len(comment_ids)` over the same documents. -/
def loadReviewCommentIdsGetActualResults (reviews : List ReviewDoc) : Nat × Nat :=
  ((reviews.map (fun r => r.comment_ids.length)).sum, 0)

/- ===================== repository.py : LoadRepositoryTask counts ===================== -/

/-- The Gateway's answer to `LoadRepositoryTask._repository_query`: whether
`data.repository` is non-null, and its `pullRequests.totalCount`. -/
structure RepoResponse where
  found : Bool
  totalCount : Nat
deriving DecidableEq, Repr

/-- `LoadRepositoryTask._get_expected_results` (repository.py lines 231-248):
it executes `_repository_query` against the Gateway — one Gateway call per
evaluation — and returns the reported `pullRequests.totalCount` (0 when the
repository is not found). -/
def loadRepositoryGetExpectedResults (resp : RepoResponse) : Nat × Nat :=
  ((if resp.found then resp.totalCount else 0), 1)

/-- `LoadRepositoryTask._get_actual_results` (repository.py lines 250-258):
the stored repository document's `total_pull_requests`, 0 when no document
exists; reads only the store. -/
def loadRepositoryGetActualResults (repo : Option Repository) : Nat × Nat :=
  (match repo with
   | some r => r.total_pull_requests
   | none => 0, 0)

/- ===================== concrete inputs used by counterexamples and witnesses ===================== -/

/-- Gateway behaviour for a relation whose API has nothing (more) to return:
every `edges` list comes back empty. -/
def emptyEdgesApi : Option String → List (String × String) := fun _ => []

/-- Gateway behaviour for a review whose declared `total_comments` is 5 but
whose API only ever returns 4 comment ids: the first page has 4 edges, and
every follow-up query (the cursor now being set) returns no edges. -/
def fourOfFiveApi : Option String → List (String × String) := fun cursor =>
  match cursor with
  | none => [("c1", "comment1"), ("c2", "comment2"), ("c3", "comment3"), ("c4", "comment4")]
  | some _ => []

/-- A commits API with a single final page holding one commit id. -/
def oneCommitPageApi : Option String → CommitPage := fun _ => ⟨false, none, ["commitA"]⟩

/-- A typed-lookup response for a node of GraphQL type `User`. -/
def userAResponse : Json :=
  Json.obj [("data", Json.obj [("node",
    Json.obj [("__typename", Json.str "User"), ("id", Json.str "A")])])]

/-- A Gateway answering every typed-lookup query with `userAResponse`. -/
def gwUserA : String → Json := fun _ => userAResponse

/-- A typed-lookup response in which `data.node` is `null` (GraphQL's answer
for an unknown node id). -/
def nodeNullResponse : Json :=
  Json.obj [("data", Json.obj [("node", Json.null)])]

/-- A Gateway that always returns HTTP status 500. -/
def alwaysStatus500 : Nat → Response := fun _ => ⟨false, 500, false, false⟩

/-- A leaf task whose single scope document declares one child but has
accumulated none. -/
def unsatisfiedDep : MTask := MTask.mk [⟨1, []⟩] MTaskList.nil

/-- A task whose own scope sums agree (no documents: 0 = 0) but whose single
required upstream task is unsatisfied. -/
def taskWithUnsatisfiedDep : MTask :=
  MTask.mk [] (MTaskList.cons unsatisfiedDep MTaskList.nil)

/-- A repository document whose pull-request ids are fully loaded. -/
def repoExample : Repository :=
  { id := "R1", name := "mantis", owner_login := "Netflix",
    owner := ⟨"O1", ActorType.ORGANIZATION⟩, total_pull_requests := 2,
    pull_request_ids := ["P1", "P2"], is_fork := false, fork_count := 4,
    insert_datetime := 10, update_datetime := 11,
    object_type := ObjectType.REPOSITORY }

/-- A store already holding the two pull-request documents of `repoExample`. -/
def prStoreExample : List PRDoc :=
  [⟨"P1", "R1", "PULL_REQUEST"⟩, ⟨"P2", "R1", "PULL_REQUEST"⟩]

/-- A pull-request document declaring two commits with none loaded yet. -/
def prTwoCommits : PrCommitDoc := ⟨"P1", 2, [], none⟩

/-- Non-termination (as a statable property of the fuel-indexed embedding):
the pull-request-ids walker of `LoadRepositoryPullRequestIdsTask`, started
on an empty accumulator, finishes under no fuel bound. -/
def PrIdLoopTerminates (api : Option String → List (String × String)) (total : Nat) : Prop :=
  ∃ fuel, (prIdLoop api total fuel [] none).isSome = true

/-- Same notion for the review-comment walker of `LoadReviewCommentIdsTask`. -/
def ReviewCommentLoopTerminates (api : Option String → List (String × String))
    (expected : Nat) : Prop :=
  ∃ fuel, (reviewCommentLoop api expected fuel [] none).isSome = true

/- ===================== theorems ===================== -/

mutual
/-- Helper: `run_successful` equals "every task in the dependency closure has
matching own-scope counts". -/
theorem run_successful_eq_all : ∀ t : MTask, run_successful t = (taskClosure t).all ownMatch
  | .mk docs reqs => by
    rw [run_successful, taskClosure, List.all_cons, reqsSuccessful_eq_all reqs]
    simp [ownMatch, docsOf, Bool.and_comm]
theorem reqsSuccessful_eq_all : ∀ ts : MTaskList,
    reqsSuccessful ts = (taskClosureList ts).all ownMatch
  | .nil => by rw [reqsSuccessful, taskClosureList]; rfl
  | .cons t ts => by
    rw [reqsSuccessful, taskClosureList, List.all_append,
      run_successful_eq_all t, reqsSuccessful_eq_all ts]
end

/-- C1 (amended): the completion oracle reports a task satisfied — and the
task's output target exists — exactly when, for the task itself AND for
every task in its transitive `requires()` closure, the scope's summed
`total_*` fields equal the summed id-list lengths.  (The claim as stated,
which looks at the task's own scope only, is refuted by
`c1_counterexample`.) -/
theorem c1_amended (t : MTask) :
    targetExists t = true ↔
      ∀ t' ∈ taskClosure t, getExpectedResults (docsOf t') = getActualResults (docsOf t') := by
  unfold targetExists
  rw [run_successful_eq_all, List.all_eq_true]
  simp [ownMatch]

/-- C1 (counterexample): a task whose own scope sums agree (0 = 0) but whose
required upstream task does not — `run_successful`/`exists` report `False`
even though the claim's own-scope condition holds. -/
theorem c1_counterexample :
    getExpectedResults (docsOf taskWithUnsatisfiedDep) =
      getActualResults (docsOf taskWithUnsatisfiedDep)
    ∧ targetExists taskWithUnsatisfiedDep = false :=
  ⟨rfl, rfl⟩

/-- C7 (amended): every per-task expected/actual computation of the
completion oracle reads only the document store — zero Gateway calls —
except `LoadRepositoryTask._get_expected_results`, which issues exactly one
Gateway query per evaluation. -/
theorem c7_amended (resp : RepoResponse) (repo? : Option Repository) (repo : Repository)
    (store : List PRDoc) (prs : List PrCommitDoc) (reviews : List ReviewDoc) :
    (loadRepositoryPullRequestIdsGetExpectedResults repo).2 = 0
    ∧ (loadRepositoryPullRequestIdsGetActualResults repo).2 = 0
    ∧ (loadPullRequestsGetExpectedResults repo).2 = 0
    ∧ (loadPullRequestsGetActualResults repo store).2 = 0
    ∧ (loadCommitIdsGetExpectedResults prs).2 = 0
    ∧ (loadCommitIdsGetActualResults prs).2 = 0
    ∧ (loadReviewCommentIdsGetExpectedResults reviews).2 = 0
    ∧ (loadReviewCommentIdsGetActualResults reviews).2 = 0
    ∧ (loadRepositoryGetActualResults repo?).2 = 0
    ∧ (loadRepositoryGetExpectedResults resp).2 = 1 :=
  ⟨rfl, rfl, rfl, rfl, rfl, rfl, rfl, rfl, rfl, rfl⟩

/-- C7 (counterexample): `LoadRepositoryTask._get_expected_results` — part of
that task's completion check — performs a Gateway call (here: on a response
reporting the repository found with 3 pull requests). -/
theorem c7_counterexample :
    (loadRepositoryGetExpectedResults ⟨true, 3⟩).2 ≠ 0 := by
  decide

/-- C10: parsing the dictionary produced by `Repository.to_dictionary` gives
back a `Repository` equal to the original on every persisted field. -/
theorem c10_repository_roundtrip (r : Repository) :
    ∃ r', Repository.parse_dictionary (Repository.to_dictionary r) = some r'
      ∧ r'.id = r.id ∧ r'.name = r.name ∧ r'.owner_login = r.owner_login
      ∧ r'.owner.id = r.owner.id ∧ r'.owner.actor_type = r.owner.actor_type
      ∧ r'.total_pull_requests = r.total_pull_requests
      ∧ r'.pull_request_ids = r.pull_request_ids
      ∧ r'.is_fork = r.is_fork ∧ r'.fork_count = r.fork_count
      ∧ r'.insert_datetime = r.insert_datetime
      ∧ r'.update_datetime = r.update_datetime := by
  obtain ⟨rid, rname, rol, ⟨oid, otype⟩, tp, pids, isf, fc, ins, upd, ot⟩ := r
  cases otype <;>
    exact ⟨_, rfl, rfl, rfl, rfl, rfl, rfl, rfl, rfl, rfl, rfl, rfl, rfl⟩

/-- Helper: the exception raised at budget exhaustion is never a
`ConnectionError`, so it is not caught by the source's
`except ConnectionError` clause. -/
theorem isConnErr_fatalExcOf (r : Response) :
    isConnErr (Except.error (fatalExcOf r)) = false := by
  by_cases h1 : r.status = 200 <;> by_cases h2 : r.hasErrors <;>
    simp [fatalExcOf, isConnErr, h1, h2]

/-- C3: against a Gateway that always fails without connection errors (any
non-200 status, or a 200 body lacking the `data` key, with or without
`errors`), `execute_query` with retry budget `n` performs exactly `n + 1`
requests, sleeping between consecutive attempts the interval dictated by
the failing response (1800 for a 200 body carrying `errors`, 60 otherwise),
and then raises the fatal exception classified from the last response
(`GraphQLStatusException` for non-200, `GraphQLException` otherwise) — it
never retries unboundedly. -/
theorem c3_bounded_retry (gw : Nat → Response) (h : ∀ i, failsWithoutConn (gw i)) :
    ∀ n idx, execute_query gw n idx =
      ⟨Except.error (fatalExcOf (gw (idx + n))),
       (List.range n).map (fun i => sleepIntervalOf (gw (idx + i))), n + 1⟩ := by
  intro n
  induction n with
  | zero =>
    intro idx
    obtain ⟨hc, hf⟩ := h idx
    rw [execute_query, hc]
    simp only [Bool.false_eq_true, if_false, Nat.add_zero, List.range_zero, List.map_nil]
    by_cases hs : (gw idx).status = 200
    · have hd : (gw idx).hasData = false := by
        rcases hf with hf | hf
        · exact absurd hs hf
        · exact hf
      by_cases he : (gw idx).hasErrors
      · simp [hs, hd, he, fatalExcOf]
      · simp [hs, hd, he, fatalExcOf]
    · simp [hs, fatalExcOf]
  | succ c ih =>
    intro idx
    obtain ⟨hc, hf⟩ := h idx
    have hr1 := ih (idx + 1)
    have hidx : idx + 1 + c = idx + (c + 1) := by omega
    have hsleeps :
        sleepIntervalOf (gw idx) ::
          (List.range c).map (fun i => sleepIntervalOf (gw (idx + 1 + i))) =
        (List.range (c + 1)).map (fun i => sleepIntervalOf (gw (idx + i))) := by
      rw [List.range_succ_eq_map, List.map_cons, List.map_map, Nat.add_zero]
      refine congrArg _ (List.map_congr_left ?_)
      intro i _
      have : idx + 1 + i = idx + (i + 1) := by omega
      simp [Function.comp, this]
    rw [execute_query, hc]
    simp only [Bool.false_eq_true, if_false]
    by_cases hs : (gw idx).status = 200
    · have hd : (gw idx).hasData = false := by
        rcases hf with hf | hf
        · exact absurd hs hf
        · exact hf
      by_cases he : (gw idx).hasErrors
      · simp only [hs, hd, he, if_true, if_false, Bool.false_eq_true, ite_true, ite_false]
        rw [hr1]
        simp only [isConnErr_fatalExcOf, Bool.false_eq_true, if_false]
        simp only [ExecTrace.mk.injEq]
        refine ⟨by rw [hidx], ?_, by omega⟩
        rw [← hsleeps]
        simp [sleepIntervalOf, hs, hd, he]
      · simp only [hs, hd, he, if_true, if_false, Bool.false_eq_true, ite_true, ite_false]
        rw [hr1]
        simp only [isConnErr_fatalExcOf, Bool.false_eq_true, if_false]
        simp only [ExecTrace.mk.injEq]
        refine ⟨by rw [hidx], ?_, by omega⟩
        rw [← hsleeps]
        simp [sleepIntervalOf, hs, hd, he]
    · simp only [hs, if_false, ite_false]
      rw [hr1]
      simp only [isConnErr_fatalExcOf, Bool.false_eq_true, if_false]
      simp only [ExecTrace.mk.injEq]
      refine ⟨by rw [hidx], ?_, by omega⟩
      rw [← hsleeps]
      simp [sleepIntervalOf, hs]

/-- C3 (witness): with the default budget 3 against a Gateway that always
returns HTTP 500, `execute_query` makes 4 requests, sleeps 60 three times,
and raises `GraphQLStatusException(500)`. -/
theorem c3_bounded_retry_witness :
    execute_query alwaysStatus500 3 0 =
      ⟨Except.error (Exc.graphQLStatus 500), [60, 60, 60], 4⟩ := by
  have h := c3_bounded_retry alwaysStatus500
    (fun i => ⟨rfl, Or.inl (by simp [alwaysStatus500])⟩) 3 0
  exact h.trans rfl

/-- Helper: under an API that returns an empty `edges` list for every
pull-request-ids query, the walker of `LoadRepositoryPullRequestIdsTask`
makes no progress from any state still below the declared total, under any
fuel. -/
theorem prIdLoop_emptyEdges_stuck (total : Nat) :
    ∀ fuel ids cursor, ids.length < total →
      prIdLoop emptyEdgesApi total fuel ids cursor = none := by
  intro fuel
  induction fuel with
  | zero => intro ids cursor h; rfl
  | succ f ih =>
    intro ids cursor h
    rw [prIdLoop]
    rw [if_pos h]
    simp only [emptyEdgesApi, List.getLast?_nil, List.map_nil, List.append_nil]
    rw [ih ids cursor h]

/-- C4: the claim fails on the code.  The pull-request-ids walker of
`LoadRepositoryPullRequestIdsTask.run` checks only the accumulated count
against the declared total (its query requests no `pageInfo` at all), so
against a repository declaring `total_pull_requests = 1` whose API returns
an empty edge list — fewer items than declared, no further pages — the
loop never terminates, for any fuel bound. -/
theorem c4_pr_id_walker_diverges : ¬ PrIdLoopTerminates emptyEdgesApi 1 := by
  rintro ⟨fuel, hf⟩
  rw [prIdLoop_emptyEdges_stuck 1 fuel [] none (by decide)] at hf
  simp at hf

/-- Helper (contrast for C4): the commits walker of `LoadCommitIdsTask.run`
does read `pageInfo.hasNextPage`, and stops as soon as a page reports no
further pages, regardless of the accumulated count. -/
theorem commitLoop_stops_on_last_page (api : Option String → CommitPage)
    (fuel : Nat) (ids : List String) (cursor : Option String)
    (h : (api cursor).hasNextPage = false) :
    commitLoop api (fuel + 1) ids cursor = some (ids ++ (api cursor).edges, 1) := by
  rw [commitLoop, h]
  rfl

/-- Helper: under the four-of-five comments API, the review-comment walker of
`LoadReviewCommentIdsTask` makes no progress from any cursor-set state still
below the declared total of 5, under any fuel. -/
theorem reviewCommentLoop_fourOfFive_stuck :
    ∀ fuel ids c, ids.length < 5 →
      reviewCommentLoop fourOfFiveApi 5 fuel ids (some c) = none := by
  intro fuel
  induction fuel with
  | zero => intro ids c h; rfl
  | succ f ih =>
    intro ids c h
    rw [reviewCommentLoop]
    rw [if_pos h]
    simp only [fourOfFiveApi, List.getLast?_nil, List.map_nil, List.append_nil]
    rw [ih ids c h]

/-- C6: the claim fails on the code.  For a review declaring
`total_comments = 5` whose API returns 4 comment ids on the first page and
no edges afterwards, the `while comments_expected > len(comment_ids)` loop
of `LoadReviewCommentIdsTask.run` never terminates (the query requests no
`pageInfo`, nothing is persisted, and no status marker exists for
reviews). -/
theorem c6_review_comment_walker_diverges : ¬ ReviewCommentLoopTerminates fourOfFiveApi 5 := by
  rintro ⟨fuel, hf⟩
  cases fuel with
  | zero => simp [reviewCommentLoop] at hf
  | succ f =>
    have h1 : reviewCommentLoop fourOfFiveApi 5 (f + 1) [] none =
        (match reviewCommentLoop fourOfFiveApi 5 f
            ["comment1", "comment2", "comment3", "comment4"] (some "c4") with
         | some r => some (r.1, r.2 + 1)
         | none => none) := rfl
    rw [h1, reviewCommentLoop_fourOfFive_stuck f
      ["comment1", "comment2", "comment3", "comment4"] "c4" (by decide)] at hf
    simp at hf

/-- C5: when the commits walker exits with fewer ids than the pull request's
declared `total_commits`, `LoadCommitIdsTask` persists the partial id list
together with `commit_id_load_status = 'GIT_RETURNED_LESS'` (and
`'LOADED_SUCCESSFULLY'` when the counts match); and the task's actual-count
computation counts `total_commits` instead of `len(commit_ids)` for
documents bearing the `'GIT_RETURNED_LESS'` marker, so expected and actual
agree — the oracle reports the task satisfied — whenever every document is
either fully loaded or so marked. -/
theorem c5_git_returned_less (api : Option String → CommitPage) (fuel : Nat)
    (pr : PrCommitDoc) (ids : List String) (calls : Nat)
    (hrun : pr.total_commits > pr.commit_ids.length)
    (hloop : commitLoop api fuel [] none = some (ids, calls)) :
    (ids.length ≠ pr.total_commits →
       loadCommitIdsForPr api fuel pr =
         some ({ pr with commit_ids := ids,
                         commit_id_load_status := some "GIT_RETURNED_LESS" }, calls))
    ∧ (ids.length = pr.total_commits →
       loadCommitIdsForPr api fuel pr =
         some ({ pr with commit_ids := ids,
                         commit_id_load_status := some "LOADED_SUCCESSFULLY" }, calls))
    ∧ ∀ prs : List PrCommitDoc,
        (∀ p ∈ prs, p.commit_id_load_status = some "GIT_RETURNED_LESS" ∨
          p.commit_ids.length = p.total_commits) →
        (loadCommitIdsGetActualResults prs).1 = (loadCommitIdsGetExpectedResults prs).1 := by
  refine ⟨?_, ?_, ?_⟩
  · intro hne
    simp only [loadCommitIdsForPr, if_pos hrun, hloop]
    rw [if_neg (fun hh => hne hh.symm)]
  · intro heq
    simp only [loadCommitIdsForPr, if_pos hrun, hloop]
    rw [if_pos heq.symm]
  · intro prs
    induction prs with
    | nil => intro _; rfl
    | cons p ps ihp =>
      intro hprs
      have hp := hprs p (List.mem_cons_self p ps)
      have hrest := ihp (fun q hq => hprs q (List.mem_cons_of_mem p hq))
      simp only [loadCommitIdsGetActualResults, loadCommitIdsGetExpectedResults,
        List.map_cons, List.sum_cons] at hrest ⊢
      rw [hrest]
      rcases hp with hp | hp
      · simp [hp]
      · by_cases hb : p.commit_id_load_status == some "GIT_RETURNED_LESS" <;> simp [hb, hp]

/-- C5 (witness): a pull request declaring 2 commits whose API's single,
final page returns one commit id is persisted with that one id and the
`GIT_RETURNED_LESS` marker, and the actual count then equals the expected
count 2. -/
theorem c5_git_returned_less_witness :
    loadCommitIdsForPr oneCommitPageApi 1 prTwoCommits =
      some (⟨"P1", 2, ["commitA"], some "GIT_RETURNED_LESS"⟩, 1)
    ∧ (loadCommitIdsGetActualResults [⟨"P1", 2, ["commitA"], some "GIT_RETURNED_LESS"⟩]).1 =
      (loadCommitIdsGetExpectedResults [⟨"P1", 2, ["commitA"], some "GIT_RETURNED_LESS"⟩]).1 := by
  have h := c5_git_returned_less oneCommitPageApi 1 prTwoCommits ["commitA"] 1
    (by decide) rfl
  exact ⟨h.1 (by decide), h.2.2 [⟨"P1", 2, ["commitA"], some "GIT_RETURNED_LESS"⟩]
    (by intro p hp; simp at hp; subst hp; left; rfl)⟩

/-- Helper: the luigi scheduler's short-circuit — every task whose completion
check already reports satisfaction is skipped, so a fully satisfied task
list leaves the store untouched and makes zero Gateway calls. -/
theorem scheduleAll_skips_satisfied {σ : Type} :
    ∀ (ts : List (STask σ)) (s : σ), (∀ t ∈ ts, t.satisfied s = true) →
      scheduleAll ts s = (s, 0) := by
  intro ts
  induction ts with
  | nil => intro s _; rfl
  | cons t ts iht =>
    intro s h
    have ht := h t (List.mem_cons_self t ts)
    have hts := iht s (fun q hq => h q (List.mem_cons_of_mem t hq))
    simp only [scheduleAll, List.foldl_cons] at hts ⊢
    rw [show (if t.satisfied (s, 0).1 then (s, 0)
        else let r := t.run (s, 0).1; (r.1, (s, 0).2 + r.2)) = (s, 0) by rw [ht]; rfl]
    exact hts

/-- C2: a task whose completion oracle already reports it satisfied is a
no-op when re-run: `LoadRepositoryPullRequestIdsTask.run` and
`LoadPullRequestsTask.run` each short-circuit on their own
expected-equals-actual guard, performing zero Gateway calls and leaving
the persisted documents unchanged; and re-running a whole task list in
which every task's oracle reports satisfaction performs zero Gateway calls
and returns an identical document set. -/
theorem c2_rerun_is_noop {σ : Type} (api : Option String → List (String × String))
    (api2 : String → PRDoc) (now fuel : Nat) (repo : Repository) (store : List PRDoc)
    (ts : List (STask σ)) (s : σ)
    (h1 : (loadRepositoryPullRequestIdsGetExpectedResults repo).1 =
            (loadRepositoryPullRequestIdsGetActualResults repo).1)
    (h2 : (loadPullRequestsGetExpectedResults repo).1 =
            (loadPullRequestsGetActualResults repo store).1)
    (h3 : ∀ t ∈ ts, t.satisfied s = true) :
    loadRepositoryPullRequestIdsRun api now repo fuel = some (repo, 0)
    ∧ loadPullRequestsRun api2 repo store = (store, 0)
    ∧ scheduleAll ts s = (s, 0) := by
  refine ⟨?_, ?_, scheduleAll_skips_satisfied ts s h3⟩
  · rw [loadRepositoryPullRequestIdsRun, if_neg (by simp [h1])]
  · rw [loadPullRequestsRun, if_neg (by simp [h2])]

/-- C2 (witness): a fully loaded repository document (2 declared, 2 stored
pull-request ids, both pull-request documents present) re-runs as a no-op,
and an (empty) satisfied task list schedules to zero calls. -/
theorem c2_rerun_is_noop_witness :
    loadRepositoryPullRequestIdsRun emptyEdgesApi 99 repoExample 5 = some (repoExample, 0)
    ∧ loadPullRequestsRun (fun i => ⟨i, "R1", "PULL_REQUEST"⟩) repoExample prStoreExample =
      (prStoreExample, 0)
    ∧ scheduleAll ([] : List (STask Nat)) 0 = (0, 0) := by
  exact @c2_rerun_is_noop Nat emptyEdgesApi (fun i => ⟨i, "R1", "PULL_REQUEST"⟩) 99 5
    repoExample prStoreExample [] 0 (by decide) (by decide)
    (fun t ht => absurd ht (List.not_mem_nil t))

/-- C8 (amended): actor resolution is memoized per task instance and input —
`lru_cache` on a method keys on the `(self, argument)` tuple.  On the same
task instance, resolving an actor id a second time (after a first
successful resolution) returns the cached actor with zero further Gateway
calls, and likewise resolving the same login a second time issues zero
further calls.  (The claim's "anywhere within one run" is refuted by
`c8_counterexample`: a second task instance misses the cache.) -/
theorem c8_per_instance_memoization (gw : String → Json) (searchBody : String → Actor × Nat)
    (self : Nat) (nodeId login : String) (cache : ActorCache) (lcache : LoginCache) (a : Actor)
    (h : (findActorByIdCached gw self nodeId cache).1 = Except.ok a) :
    findActorByIdCached gw self nodeId (findActorByIdCached gw self nodeId cache).2.1 =
      (Except.ok a, (findActorByIdCached gw self nodeId cache).2.1, 0)
    ∧ findActorByLoginCached searchBody self login
        (findActorByLoginCached searchBody self login lcache).2.1 =
      ((findActorByLoginCached searchBody self login lcache).1,
       (findActorByLoginCached searchBody self login lcache).2.1, 0) := by
  constructor
  · unfold findActorByIdCached at h ⊢
    cases hc : cache.find? (fun e => e.1.1 == self && e.1.2 == nodeId) with
    | some e =>
      simp only [hc] at h ⊢
      obtain rfl : e.2 = a := by simpa using h
      simp [hc]
    | none =>
      simp only [hc] at h ⊢
      cases hr : findActorTypeFromResponse nodeId (gw nodeId) with
      | ok a0 =>
        simp only [hr] at h ⊢
        obtain rfl : a0 = a := by simpa using h
        rw [List.find?_cons_of_pos _ (by simp)]
      | error err =>
        rw [hr] at h
        simp at h
  · unfold findActorByLoginCached
    cases hc : lcache.find? (fun e => e.1.1 == self && e.1.2 == login) with
    | some e => simp [hc]
    | none =>
      simp only [hc]
      rw [List.find?_cons_of_pos _ (by simp)]

/-- C8 (witness): on one task instance (0), a first resolution of node id
`"A"` caches the typed actor; the immediate second resolution returns it
from the cache with zero Gateway calls. -/
theorem c8_per_instance_memoization_witness :
    findActorByIdCached gwUserA 0 "A" (findActorByIdCached gwUserA 0 "A" []).2.1 =
      (Except.ok ⟨"A", ActorType.USER⟩, (findActorByIdCached gwUserA 0 "A" []).2.1, 0) :=
  (c8_per_instance_memoization gwUserA (fun l => (⟨l, ActorType.USER⟩, 1)) 0 "A" "octo"
    [] [] ⟨"A", ActorType.USER⟩ rfl).1

/-- C8 (counterexample): two different task instances (0 and 1) resolving the
same actor id `"A"` within one run perform two Gateway calls, not one —
`lru_cache` keys on `self`, so the second instance misses the first
instance's entry. -/
theorem c8_counterexample :
    (findActorByIdCached gwUserA 0 "A" []).2.2 +
      (findActorByIdCached gwUserA 1 "A" (findActorByIdCached gwUserA 0 "A" []).2.1).2.2 = 2 := by
  rfl

/-- C9 (amended): for every node id and every Gateway response in which the
`data`/`node`/`__typename` extraction either yields a value or fails with a
`KeyError` (the only exception the source catches), `_find_actor_by_id`
returns an `Actor` whose id is the queried node id and whose type is the
`ActorType` matching the uppercased `__typename`, `UNKNOWN` when the
typename is absent or matches no known type.  (A response whose `data.node`
is `null` makes the extraction raise `TypeError`, which propagates:
`c9_counterexample`.) -/
theorem c9_actor_resolution (nodeId : String) (response : Json)
    (h : ∀ e, typenameOf response = Except.error e → e = PyError.keyError) :
    findActorTypeFromResponse nodeId response =
      Except.ok ⟨nodeId, actorTypeFromTypename (typenameOf response)⟩ := by
  cases ht : typenameOf response with
  | ok s =>
    simp only [findActorTypeFromResponse, actorTypeFromTypename, ht]
    cases hf : actorTypeList.find? (fun t => s == t.name) with
    | some t => simp
    | none => simp
  | error e =>
    have he := h e ht
    subst he
    simp only [findActorTypeFromResponse, actorTypeFromTypename, ht]

/-- C9 (witness): a well-formed typed-lookup response of GraphQL type `User`
resolves to `Actor(id = queried id, type = USER)` without raising. -/
theorem c9_actor_resolution_witness :
    findActorTypeFromResponse "A" userAResponse = Except.ok ⟨"A", ActorType.USER⟩ := by
  have h := c9_actor_resolution "A" userAResponse
    (fun e he => by
      rw [show typenameOf userAResponse = Except.ok "USER" from rfl] at he
      exact Except.noConfusion he)
  exact h.trans rfl

/-- C9 (counterexample): on a response whose `data.node` is `null` — GraphQL's
answer for an unknown node id — `_find_actor_by_id` raises `TypeError`
(`None` is not subscriptable) instead of returning an `UNKNOWN` actor: only
`KeyError` is caught. -/
theorem c9_counterexample :
    findActorTypeFromResponse "missingNode" nodeNullResponse =
      Except.error PyError.typeError := rfl
